import Mathlib

/-!
Verification of the vital-sign alert engine of the e-Vilochan patient
monitoring dashboard.

The embedding below translates, into Lean:

* the server-side range table `ALERT_RANGES` and alert evaluator
  `generateAlertsForVitals` from `server/index.js`;
* the sanitisation performed by the `POST /api/vitals` endpoint before a
  reading is stored, broadcast and evaluated (`server/index.js`);
* the client-side range table `VITAL_RANGES` and the per-patient
  notification store update from `src/components/PatientVitalMonitor.tsx`;
* the alert-list merge performed by the `VitalNotifications` component;
* (modelled from the spec, since it has no implementation in the sources)
  the email-channel dedup and rate limiter.

JavaScript numbers that hold vital values are modelled as `Int`; absent
fields (`null` / `undefined`) as `Option`.  Wall-clock time (`Date.now()`)
is passed explicitly as a `Nat` of milliseconds.  The textual rendering of
an alert timestamp (`toISOString`) is presentation only, so an alert keeps
the raw instant.
-/

/-- One vitals reading, with the fields the alert logic reads.  The JS
objects also carry a `source` tag, which the alert logic never reads, so it
is omitted here.  `created_at` is the timestamp string of the reading. -/
structure Vital where
  patient_id : Int
  hr : Option Int
  pulse : Option Int
  spo2 : Option Int
  abp : Option String
  pap : Option String
  etco2 : Option Int
  awrr : Option Int
  created_at : String
deriving DecidableEq, Repr

/-- One row of the threshold tables: warning bounds (`low`, `high`) and
critical bounds (`criticalLow`, `criticalHigh`). -/
structure AlertRange where
  low : Int
  high : Int
  criticalLow : Int
  criticalHigh : Int
deriving DecidableEq, Repr

/-- The seven-row shape shared by the server and client threshold tables. -/
structure AlertRangeTable where
  HR : AlertRange
  Pulse : AlertRange
  SpO2 : AlertRange
  ABP_Sys : AlertRange
  PAP_Dia : AlertRange
  EtCO2 : AlertRange
  awRR : AlertRange
deriving DecidableEq, Repr

/-- Server threshold table (`ALERT_RANGES` in `server/index.js`). -/
def ALERT_RANGES : AlertRangeTable :=
  { HR := { low := 60, high := 100, criticalLow := 50, criticalHigh := 120 }
    Pulse := { low := 60, high := 100, criticalLow := 50, criticalHigh := 120 }
    SpO2 := { low := 90, high := 100, criticalLow := 85, criticalHigh := 100 }
    ABP_Sys := { low := 90, high := 120, criticalLow := 70, criticalHigh := 180 }
    PAP_Dia := { low := 4, high := 12, criticalLow := 2, criticalHigh := 20 }
    EtCO2 := { low := 35, high := 45, criticalLow := 25, criticalHigh := 55 }
    awRR := { low := 12, high := 20, criticalLow := 8, criticalHigh := 25 } }

/-- Client threshold table (`VITAL_RANGES` in
`src/components/PatientVitalMonitor.tsx`). -/
def VITAL_RANGES : AlertRangeTable :=
  { HR := { low := 60, high := 100, criticalLow := 50, criticalHigh := 120 }
    Pulse := { low := 60, high := 100, criticalLow := 50, criticalHigh := 120 }
    SpO2 := { low := 90, high := 100, criticalLow := 85, criticalHigh := 100 }
    ABP_Sys := { low := 90, high := 120, criticalLow := 70, criticalHigh := 180 }
    PAP_Dia := { low := 4, high := 12, criticalLow := 2, criticalHigh := 20 }
    EtCO2 := { low := 35, high := 45, criticalLow := 25, criticalHigh := 55 }
    awRR := { low := 12, high := 20, criticalLow := 8, criticalHigh := 25 } }

/-- One alert record.  `type` is the direction (`"low"` or `"high"`),
`severity` is `"warning"` or `"critical"`; `timestamp` is the instant at
which the alert object was built (the JS code renders it with
`toISOString`). -/
structure Alert where
  id : String
  patientId : Int
  vital : String
  value : Int
  type : String
  severity : String
  timestamp : Nat
deriving DecidableEq, Repr

/-- The `pushAlert` closure inside `generateAlertsForVitals`:
`id` is the template string `patientId-vitalKey-Date.now()`. -/
def pushAlert (patientId : Int) (vitalKey : String) (value : Int)
    (type : String) (severity : String) (now : Nat) : Alert :=
  { id := s!"{patientId}-{vitalKey}-{now}"
    patientId := patientId
    vital := vitalKey
    value := value
    type := type
    severity := severity
    timestamp := now }

/-- True when one of the characters `parseInt` skips over stands at the
front of its argument. -/
def isJsWhitespace (c : Char) : Bool :=
  c = ' ' ∨ c = '\t' ∨ c = '\n' ∨ c = '\r'

/-- Numeric value of a hexadecimal digit character, if any. -/
def hexDigitVal (c : Char) : Option Nat :=
  if '0' ≤ c ∧ c ≤ '9' then some (c.toNat - '0'.toNat)
  else if 'a' ≤ c ∧ c ≤ 'f' then some (c.toNat - 'a'.toNat + 10)
  else if 'A' ≤ c ∧ c ≤ 'F' then some (c.toNat - 'A'.toNat + 10)
  else none

/-- The longest prefix of digit values below `base`. -/
def takeDigits (base : Nat) : List Char → List Nat
  | [] => []
  | c :: rest =>
    match hexDigitVal c with
    | some d => if d < base then d :: takeDigits base rest else []
    | none => []

/-- JavaScript `parseInt(s)` with the default radix: skip leading
whitespace, read an optional sign, detect a `0x`/`0X` hex prefix, then read
the longest run of digits; `NaN` (here `none`) when that run is empty. -/
def jsParseInt (s : String) : Option Int :=
  let cs := s.toList.dropWhile isJsWhitespace
  let signAndRest : Int × List Char :=
    match cs with
    | '-' :: r => (-1, r)
    | '+' :: r => (1, r)
    | _ => (1, cs)
  let baseAndRest : Nat × List Char :=
    match signAndRest.2 with
    | '0' :: 'x' :: r => (16, r)
    | '0' :: 'X' :: r => (16, r)
    | _ => (10, signAndRest.2)
  let ds := takeDigits baseAndRest.1 baseAndRest.2
  if ds.isEmpty then none
  else some (signAndRest.1 * (ds.foldl (fun a d => a * baseAndRest.1 + d) 0 : Nat))

/-- `parseInt` applied to an array element that may be out of bounds:
`parseInt(undefined)` is `NaN`, i.e. `none`. -/
def jsParseIntOpt : Option String → Option Int
  | none => none
  | some s => jsParseInt s

/-- Split a character list at every occurrence of `sep`; splitting the
empty list yields one empty piece, as JS `split` does on the empty
string. -/
def splitOnCharList (sep : Char) : List Char → List (List Char)
  | [] => [[]]
  | c :: rest =>
    let r := splitOnCharList sep rest
    if c = sep then [] :: r
    else
      match r with
      | [] => [[c]]
      | h :: t => (c :: h) :: t

/-- JavaScript `s.split(sep)` for the one-character separator `/` used by
the blood-pressure blocks. -/
def jsSplitSlash (s : String) : List String :=
  (splitOnCharList '/' s.data).map String.mk

/-- The HR block of `generateAlertsForVitals`. -/
def hrAlerts (vital : Vital) (now : Nat) : List Alert :=
  match vital.hr with
  | none => []
  | some hr =>
    if hr < ALERT_RANGES.HR.low ∨ hr > ALERT_RANGES.HR.high then
      [pushAlert vital.patient_id "HR" hr
        (if hr < ALERT_RANGES.HR.low then "low" else "high")
        (if hr < ALERT_RANGES.HR.criticalLow ∨ hr > ALERT_RANGES.HR.criticalHigh
          then "critical" else "warning") now]
    else []

/-- The Pulse block of `generateAlertsForVitals`. -/
def pulseAlerts (vital : Vital) (now : Nat) : List Alert :=
  match vital.pulse with
  | none => []
  | some pulse =>
    if pulse < ALERT_RANGES.Pulse.low ∨ pulse > ALERT_RANGES.Pulse.high then
      [pushAlert vital.patient_id "Pulse" pulse
        (if pulse < ALERT_RANGES.Pulse.low then "low" else "high")
        (if pulse < ALERT_RANGES.Pulse.criticalLow ∨ pulse > ALERT_RANGES.Pulse.criticalHigh
          then "critical" else "warning") now]
    else []

/-- The SpO2 block of `generateAlertsForVitals`: only the low side is
compared, and the direction is always `"low"`. -/
def spo2Alerts (vital : Vital) (now : Nat) : List Alert :=
  match vital.spo2 with
  | none => []
  | some spo2 =>
    if spo2 < ALERT_RANGES.SpO2.low then
      [pushAlert vital.patient_id "SpO2" spo2 "low"
        (if spo2 < ALERT_RANGES.SpO2.criticalLow then "critical" else "warning") now]
    else []

/-- The ABP Sys block of `generateAlertsForVitals`: guarded by the JS
truthiness of `vital.abp` (absent or empty string skips), then
`parseInt(String(vital.abp).split(sep)[0])` with a `NaN` check. -/
def abpAlerts (vital : Vital) (now : Nat) : List Alert :=
  match vital.abp with
  | none => []
  | some s =>
    if s ≠ "" then
      match jsParseIntOpt ((jsSplitSlash s)[0]?) with
      | none => []
      | some abpSys =>
        if abpSys < ALERT_RANGES.ABP_Sys.low ∨ abpSys > ALERT_RANGES.ABP_Sys.high then
          [pushAlert vital.patient_id "ABP Sys" abpSys
            (if abpSys < ALERT_RANGES.ABP_Sys.low then "low" else "high")
            (if abpSys < ALERT_RANGES.ABP_Sys.criticalLow ∨ abpSys > ALERT_RANGES.ABP_Sys.criticalHigh
              then "critical" else "warning") now]
        else []
    else []

/-- The PAP Dia block of `generateAlertsForVitals`: component index 1 of
the split. -/
def papAlerts (vital : Vital) (now : Nat) : List Alert :=
  match vital.pap with
  | none => []
  | some s =>
    if s ≠ "" then
      match jsParseIntOpt ((jsSplitSlash s)[1]?) with
      | none => []
      | some papDia =>
        if papDia < ALERT_RANGES.PAP_Dia.low ∨ papDia > ALERT_RANGES.PAP_Dia.high then
          [pushAlert vital.patient_id "PAP Dia" papDia
            (if papDia < ALERT_RANGES.PAP_Dia.low then "low" else "high")
            (if papDia < ALERT_RANGES.PAP_Dia.criticalLow ∨ papDia > ALERT_RANGES.PAP_Dia.criticalHigh
              then "critical" else "warning") now]
        else []
    else []

/-- The EtCO2 block of `generateAlertsForVitals`. -/
def etco2Alerts (vital : Vital) (now : Nat) : List Alert :=
  match vital.etco2 with
  | none => []
  | some etco2 =>
    if etco2 < ALERT_RANGES.EtCO2.low ∨ etco2 > ALERT_RANGES.EtCO2.high then
      [pushAlert vital.patient_id "EtCO2" etco2
        (if etco2 < ALERT_RANGES.EtCO2.low then "low" else "high")
        (if etco2 < ALERT_RANGES.EtCO2.criticalLow ∨ etco2 > ALERT_RANGES.EtCO2.criticalHigh
          then "critical" else "warning") now]
    else []

/-- The awRR block of `generateAlertsForVitals`. -/
def awrrAlerts (vital : Vital) (now : Nat) : List Alert :=
  match vital.awrr with
  | none => []
  | some awrr =>
    if awrr < ALERT_RANGES.awRR.low ∨ awrr > ALERT_RANGES.awRR.high then
      [pushAlert vital.patient_id "awRR" awrr
        (if awrr < ALERT_RANGES.awRR.low then "low" else "high")
        (if awrr < ALERT_RANGES.awRR.criticalLow ∨ awrr > ALERT_RANGES.awRR.criticalHigh
          then "critical" else "warning") now]
    else []

/-- `generateAlertsForVitals` from `server/index.js`: the seven field
blocks append their alerts to the shared list in source order.  `now` is
the wall clock (`Date.now()`) at evaluation time. -/
def generateAlertsForVitals (vital : Vital) (now : Nat) : List Alert :=
  hrAlerts vital now ++ pulseAlerts vital now ++ spo2Alerts vital now ++
    abpAlerts vital now ++ papAlerts vital now ++ etco2Alerts vital now ++
    awrrAlerts vital now

/-- The closed enumeration of evaluated vital kinds (spec section 3). -/
inductive VitalKind
  | HeartRate
  | Pulse
  | SpO2
  | ArterialSystolic
  | PulmonaryDiastolic
  | EtCO2
  | AirwayRespRate
deriving DecidableEq, Repr

/-- The `vital` label the server evaluator attaches to alerts of each
kind. -/
def vitalLabel : VitalKind → String
  | .HeartRate => "HR"
  | .Pulse => "Pulse"
  | .SpO2 => "SpO2"
  | .ArterialSystolic => "ABP Sys"
  | .PulmonaryDiastolic => "PAP Dia"
  | .EtCO2 => "EtCO2"
  | .AirwayRespRate => "awRR"

/-- The row of the server range table used for each kind. -/
def rangeOf : VitalKind → AlertRange
  | .HeartRate => ALERT_RANGES.HR
  | .Pulse => ALERT_RANGES.Pulse
  | .SpO2 => ALERT_RANGES.SpO2
  | .ArterialSystolic => ALERT_RANGES.ABP_Sys
  | .PulmonaryDiastolic => ALERT_RANGES.PAP_Dia
  | .EtCO2 => ALERT_RANGES.EtCO2
  | .AirwayRespRate => ALERT_RANGES.awRR

/-- The kinds evaluated by the plain scalar two-sided rule; SpO2 is scalar
but one-sided, and the blood-pressure kinds are parsed from compound
strings. -/
def isPlainScalar : VitalKind → Bool
  | .HeartRate => true
  | .Pulse => true
  | .EtCO2 => true
  | .AirwayRespRate => true
  | _ => false

/-- The numeric value the evaluator compares for a kind, when present: the
scalar field itself, or for the blood-pressure kinds the integer parsed at
the required component index, under the same truthiness guard the
evaluator uses. -/
def kindValue : VitalKind → Vital → Option Int
  | .HeartRate, r => r.hr
  | .Pulse, r => r.pulse
  | .SpO2, r => r.spo2
  | .EtCO2, r => r.etco2
  | .AirwayRespRate, r => r.awrr
  | .ArterialSystolic, r =>
    match r.abp with
    | none => none
    | some s => if s ≠ "" then jsParseIntOpt ((jsSplitSlash s)[0]?) else none
  | .PulmonaryDiastolic, r =>
    match r.pap with
    | none => none
    | some s => if s ≠ "" then jsParseIntOpt ((jsSplitSlash s)[1]?) else none

/-- The alerts of one kind inside an alert list, selected by label. -/
def alertsFor (label : String) (l : List Alert) : List Alert :=
  l.filter (fun a => a.vital == label)

/-- A reading with every vital field absent. -/
def allAbsent (patientId : Int) (created_at : String) : Vital :=
  { patient_id := patientId
    hr := none
    pulse := none
    spo2 := none
    abp := none
    pap := none
    etco2 := none
    awrr := none
    created_at := created_at }

/-- The value substitution the `POST /api/vitals` endpoint applies before
a reading is stored, broadcast and evaluated: `hr` and `pulse` survive only
when truthy and strictly between 0 and 300, `spo2` only when truthy,
positive and at most 100; `abp`, `pap`, `etco2` and `awrr` are replaced by
`null` when falsy; a falsy `patient_id` defaults to 1. -/
def sanitizedVital (vital : Vital) : Vital :=
  { patient_id := if vital.patient_id = 0 then 1 else vital.patient_id
    hr :=
      match vital.hr with
      | none => none
      | some x => if x ≠ 0 ∧ x > 0 ∧ x < 300 then some x else none
    pulse :=
      match vital.pulse with
      | none => none
      | some x => if x ≠ 0 ∧ x > 0 ∧ x < 300 then some x else none
    spo2 :=
      match vital.spo2 with
      | none => none
      | some x => if x ≠ 0 ∧ x > 0 ∧ x ≤ 100 then some x else none
    abp :=
      match vital.abp with
      | none => none
      | some s => if s ≠ "" then some s else none
    pap :=
      match vital.pap with
      | none => none
      | some s => if s ≠ "" then some s else none
    etco2 :=
      match vital.etco2 with
      | none => none
      | some x => if x ≠ 0 then some x else none
    awrr :=
      match vital.awrr with
      | none => none
      | some x => if x ≠ 0 then some x else none
    created_at := vital.created_at }

/-- The alerts the `POST /api/vitals` endpoint generates and emits for one
submitted reading: evaluation runs on the sanitised `completeVital`. -/
def postVitalsAlerts (vital : Vital) (now : Nat) : List Alert :=
  generateAlertsForVitals (sanitizedVital vital) now

/-- The per-patient notification store of `PatientVitalMonitor.tsx`,
modelled as a map from patient id to the stored alert list. -/
def PatientStore : Type := Int → Option (List Alert)

/-- The store update in `PatientVitalMonitor.tsx`: a non-empty evaluation
replaces the entry wholesale (`patientNotifications.set`); an empty one
deletes the entry. -/
def patientNotificationsUpdate (store : PatientStore) (patientId : Int)
    (newAlerts : List Alert) : PatientStore :=
  if newAlerts.length > 0 then
    fun pid => if pid = patientId then some newAlerts else store pid
  else
    fun pid => if pid = patientId then none else store pid

/-- The alert-list merge inside the `VitalNotifications` component: kinds
re-alerted by the new evaluation displace their old entries, the new alerts
are appended, and dismissed ids are dropped. -/
def vitalNotificationsMerge (prevAlerts newAlerts : List Alert)
    (dismissed : List String) : List Alert :=
  let vitalTypes := newAlerts.map (fun a => a.vital)
  let filteredPrev := prevAlerts.filter (fun a => ¬ vitalTypes.contains a.vital)
  (filteredPrev ++ newAlerts).filter (fun a => ¬ dismissed.contains a.id)

/-- Modelled from the spec: the Dedup and Rate Limiter of section 4.3 has
no implementation under the sources (only the spec describes it), so its
state is a map from (subjectId, vitalKind) to the last delivery instant in
milliseconds. -/
def RateLimitState : Type := Int × String → Option Nat

/-- Modelled from the spec: the email-channel cooldown of 5 minutes, in
milliseconds. -/
def cooldownMs : Nat := 5 * 60 * 1000

/-- Modelled from the spec: `shouldDeliver(subjectId, vitalKind, now)` is
true iff no prior entry exists for the key, or `now - lastEntry` is at
least the cooldown. -/
def shouldDeliver (st : RateLimitState) (subjectId : Int) (vitalKind : String)
    (now : Nat) : Bool :=
  match st (subjectId, vitalKind) with
  | none => true
  | some lastEntry => now - lastEntry ≥ cooldownMs

/-- Modelled from the spec: `recordDelivery(subjectId, vitalKind, now)`
creates or overwrites the entry for the key. -/
def recordDelivery (st : RateLimitState) (subjectId : Int) (vitalKind : String)
    (now : Nat) : RateLimitState :=
  fun key => if key = (subjectId, vitalKind) then some now else st key

/-- Modelled from the spec: the empty rate-limiter state. -/
def emptyRateLimitState : RateLimitState := fun _ => none

/-- The abnormal test reading from `test-notifications.js`. -/
def testVitals : Vital :=
  { patient_id := 1
    hr := some 45
    pulse := some 45
    spo2 := some 85
    abp := some "85/60"
    pap := some "15/13"
    etco2 := some 50
    awrr := some 25
    created_at := "2025-01-01T00:00:00.000Z" }

/-- The alert fields that do not depend on the evaluation instant. -/
def alertCore (a : Alert) : String × Int × String × String :=
  (a.vital, a.value, a.type, a.severity)

/-- Every alert the HR block emits is a `pushAlert` with label `"HR"` and
the evaluation instant. -/
theorem hrAlerts_mem (r : Vital) (now : Nat) (a : Alert) (ha : a ∈ hrAlerts r now) :
    ∃ v ty sev, a = pushAlert r.patient_id "HR" v ty sev now := by
  unfold hrAlerts at ha
  rcases h : r.hr with _ | v <;> simp only [h] at ha
  · simp at ha
  · split_ifs at ha <;>
      first
        | exact absurd ha (List.not_mem_nil a)
        | (rw [List.mem_singleton] at ha; exact ⟨_, _, _, ha⟩)

theorem pulseAlerts_mem (r : Vital) (now : Nat) (a : Alert) (ha : a ∈ pulseAlerts r now) :
    ∃ v ty sev, a = pushAlert r.patient_id "Pulse" v ty sev now := by
  unfold pulseAlerts at ha
  rcases h : r.pulse with _ | v <;> simp only [h] at ha
  · simp at ha
  · split_ifs at ha <;>
      first
        | exact absurd ha (List.not_mem_nil a)
        | (rw [List.mem_singleton] at ha; exact ⟨_, _, _, ha⟩)

theorem spo2Alerts_mem (r : Vital) (now : Nat) (a : Alert) (ha : a ∈ spo2Alerts r now) :
    ∃ v sev, a = pushAlert r.patient_id "SpO2" v "low" sev now := by
  unfold spo2Alerts at ha
  rcases h : r.spo2 with _ | v <;> simp only [h] at ha
  · simp at ha
  · split_ifs at ha <;>
      first
        | exact absurd ha (List.not_mem_nil a)
        | (rw [List.mem_singleton] at ha; exact ⟨_, _, ha⟩)

theorem abpAlerts_mem (r : Vital) (now : Nat) (a : Alert) (ha : a ∈ abpAlerts r now) :
    ∃ v ty sev, a = pushAlert r.patient_id "ABP Sys" v ty sev now := by
  unfold abpAlerts at ha
  rcases h : r.abp with _ | s <;> simp only [h] at ha
  · simp at ha
  · split_ifs at ha with hs
    · rcases hp : jsParseIntOpt ((jsSplitSlash s)[0]?) with _ | v <;> simp only [hp] at ha
      · simp at ha
      · split_ifs at ha <;>
          first
            | exact absurd ha (List.not_mem_nil a)
            | (rw [List.mem_singleton] at ha; exact ⟨_, _, _, ha⟩)
    · simp at ha

theorem papAlerts_mem (r : Vital) (now : Nat) (a : Alert) (ha : a ∈ papAlerts r now) :
    ∃ v ty sev, a = pushAlert r.patient_id "PAP Dia" v ty sev now := by
  unfold papAlerts at ha
  rcases h : r.pap with _ | s <;> simp only [h] at ha
  · simp at ha
  · split_ifs at ha with hs
    · rcases hp : jsParseIntOpt ((jsSplitSlash s)[1]?) with _ | v <;> simp only [hp] at ha
      · simp at ha
      · split_ifs at ha <;>
          first
            | exact absurd ha (List.not_mem_nil a)
            | (rw [List.mem_singleton] at ha; exact ⟨_, _, _, ha⟩)
    · simp at ha

theorem etco2Alerts_mem (r : Vital) (now : Nat) (a : Alert) (ha : a ∈ etco2Alerts r now) :
    ∃ v ty sev, a = pushAlert r.patient_id "EtCO2" v ty sev now := by
  unfold etco2Alerts at ha
  rcases h : r.etco2 with _ | v <;> simp only [h] at ha
  · simp at ha
  · split_ifs at ha <;>
      first
        | exact absurd ha (List.not_mem_nil a)
        | (rw [List.mem_singleton] at ha; exact ⟨_, _, _, ha⟩)

theorem awrrAlerts_mem (r : Vital) (now : Nat) (a : Alert) (ha : a ∈ awrrAlerts r now) :
    ∃ v ty sev, a = pushAlert r.patient_id "awRR" v ty sev now := by
  unfold awrrAlerts at ha
  rcases h : r.awrr with _ | v <;> simp only [h] at ha
  · simp at ha
  · split_ifs at ha <;>
      first
        | exact absurd ha (List.not_mem_nil a)
        | (rw [List.mem_singleton] at ha; exact ⟨_, _, _, ha⟩)

/-- Selecting a label from a list whose alerts all carry one label keeps
everything or nothing. -/
theorem alertsFor_of_all_eq (lbl lbl2 : String) (l : List Alert)
    (h : ∀ a ∈ l, a.vital = lbl2) :
    alertsFor lbl l = if lbl2 == lbl then l else [] := by
  unfold alertsFor
  by_cases he : lbl2 = lbl
  · subst he
    simp only [beq_self_eq_true, if_true]
    exact List.filter_eq_self.mpr (fun a ha => by simp [h a ha])
  · rw [if_neg (by simpa using he)]
    exact List.filter_eq_nil_iff.mpr (fun a ha => by simp [h a ha, he])

/-- The seven per-kind blocks of the evaluator. -/
def kindAlerts : VitalKind → Vital → Nat → List Alert
  | .HeartRate => hrAlerts
  | .Pulse => pulseAlerts
  | .SpO2 => spo2Alerts
  | .ArterialSystolic => abpAlerts
  | .PulmonaryDiastolic => papAlerts
  | .EtCO2 => etco2Alerts
  | .AirwayRespRate => awrrAlerts

theorem hrAlerts_vital (r : Vital) (now : Nat) : ∀ a ∈ hrAlerts r now, a.vital = "HR" := by
  intro a ha; obtain ⟨v, ty, sev, rfl⟩ := hrAlerts_mem r now a ha; rfl

theorem pulseAlerts_vital (r : Vital) (now : Nat) : ∀ a ∈ pulseAlerts r now, a.vital = "Pulse" := by
  intro a ha; obtain ⟨v, ty, sev, rfl⟩ := pulseAlerts_mem r now a ha; rfl

theorem spo2Alerts_vital (r : Vital) (now : Nat) : ∀ a ∈ spo2Alerts r now, a.vital = "SpO2" := by
  intro a ha; obtain ⟨v, sev, rfl⟩ := spo2Alerts_mem r now a ha; rfl

theorem abpAlerts_vital (r : Vital) (now : Nat) : ∀ a ∈ abpAlerts r now, a.vital = "ABP Sys" := by
  intro a ha; obtain ⟨v, ty, sev, rfl⟩ := abpAlerts_mem r now a ha; rfl

theorem papAlerts_vital (r : Vital) (now : Nat) : ∀ a ∈ papAlerts r now, a.vital = "PAP Dia" := by
  intro a ha; obtain ⟨v, ty, sev, rfl⟩ := papAlerts_mem r now a ha; rfl

theorem etco2Alerts_vital (r : Vital) (now : Nat) : ∀ a ∈ etco2Alerts r now, a.vital = "EtCO2" := by
  intro a ha; obtain ⟨v, ty, sev, rfl⟩ := etco2Alerts_mem r now a ha; rfl

theorem awrrAlerts_vital (r : Vital) (now : Nat) : ∀ a ∈ awrrAlerts r now, a.vital = "awRR" := by
  intro a ha; obtain ⟨v, ty, sev, rfl⟩ := awrrAlerts_mem r now a ha; rfl

/-- Selecting the label of a kind from the full evaluator output yields
exactly the alerts of the corresponding block. -/
theorem alertsFor_append (lbl : String) (l1 l2 : List Alert) :
    alertsFor lbl (l1 ++ l2) = alertsFor lbl l1 ++ alertsFor lbl l2 :=
  List.filter_append ..

/-- Selecting the label of a kind from the full evaluator output yields
exactly the alerts of the corresponding block. -/
theorem alertsFor_generate (k : VitalKind) (r : Vital) (now : Nat) :
    alertsFor (vitalLabel k) (generateAlertsForVitals r now) = kindAlerts k r now := by
  have h1 := alertsFor_of_all_eq (vitalLabel k) "HR" (hrAlerts r now) (hrAlerts_vital r now)
  have h2 := alertsFor_of_all_eq (vitalLabel k) "Pulse" (pulseAlerts r now) (pulseAlerts_vital r now)
  have h3 := alertsFor_of_all_eq (vitalLabel k) "SpO2" (spo2Alerts r now) (spo2Alerts_vital r now)
  have h4 := alertsFor_of_all_eq (vitalLabel k) "ABP Sys" (abpAlerts r now) (abpAlerts_vital r now)
  have h5 := alertsFor_of_all_eq (vitalLabel k) "PAP Dia" (papAlerts r now) (papAlerts_vital r now)
  have h6 := alertsFor_of_all_eq (vitalLabel k) "EtCO2" (etco2Alerts r now) (etco2Alerts_vital r now)
  have h7 := alertsFor_of_all_eq (vitalLabel k) "awRR" (awrrAlerts r now) (awrrAlerts_vital r now)
  cases k <;>
    simp_all only [generateAlertsForVitals, kindAlerts, alertsFor_append, vitalLabel] <;>
    simp_all

theorem hrAlerts_core (r : Vital) (n1 n2 : Nat) :
    (hrAlerts r n1).map alertCore = (hrAlerts r n2).map alertCore := by
  unfold hrAlerts
  rcases h : r.hr with _ | v <;> simp only [h]
  split_ifs <;> rfl

theorem pulseAlerts_core (r : Vital) (n1 n2 : Nat) :
    (pulseAlerts r n1).map alertCore = (pulseAlerts r n2).map alertCore := by
  unfold pulseAlerts
  rcases h : r.pulse with _ | v <;> simp only [h]
  split_ifs <;> rfl

theorem spo2Alerts_core (r : Vital) (n1 n2 : Nat) :
    (spo2Alerts r n1).map alertCore = (spo2Alerts r n2).map alertCore := by
  unfold spo2Alerts
  rcases h : r.spo2 with _ | v <;> simp only [h]
  split_ifs <;> rfl

theorem abpAlerts_core (r : Vital) (n1 n2 : Nat) :
    (abpAlerts r n1).map alertCore = (abpAlerts r n2).map alertCore := by
  unfold abpAlerts
  rcases h : r.abp with _ | s <;> simp only [h]
  split_ifs with hs
  · rcases hp : jsParseIntOpt ((jsSplitSlash s)[0]?) with _ | v <;> simp only [hp]
    split_ifs <;> rfl
  · rfl

theorem papAlerts_core (r : Vital) (n1 n2 : Nat) :
    (papAlerts r n1).map alertCore = (papAlerts r n2).map alertCore := by
  unfold papAlerts
  rcases h : r.pap with _ | s <;> simp only [h]
  split_ifs with hs
  · rcases hp : jsParseIntOpt ((jsSplitSlash s)[1]?) with _ | v <;> simp only [hp]
    split_ifs <;> rfl
  · rfl

theorem etco2Alerts_core (r : Vital) (n1 n2 : Nat) :
    (etco2Alerts r n1).map alertCore = (etco2Alerts r n2).map alertCore := by
  unfold etco2Alerts
  rcases h : r.etco2 with _ | v <;> simp only [h]
  split_ifs <;> rfl

theorem awrrAlerts_core (r : Vital) (n1 n2 : Nat) :
    (awrrAlerts r n1).map alertCore = (awrrAlerts r n2).map alertCore := by
  unfold awrrAlerts
  rcases h : r.awrr with _ | v <;> simp only [h]
  split_ifs <;> rfl

/-- Every alert the evaluator emits is a `pushAlert` for the patient of
the reading, stamped with the evaluation instant. -/
theorem generate_mem (r : Vital) (now : Nat) (a : Alert)
    (ha : a ∈ generateAlertsForVitals r now) :
    ∃ lbl v ty sev, a = pushAlert r.patient_id lbl v ty sev now := by
  unfold generateAlertsForVitals at ha
  simp only [List.mem_append] at ha
  rcases ha with ((((((h | h) | h) | h) | h) | h) | h)
  · obtain ⟨v, ty, sev, rfl⟩ := hrAlerts_mem r now a h; exact ⟨_, _, _, _, rfl⟩
  · obtain ⟨v, ty, sev, rfl⟩ := pulseAlerts_mem r now a h; exact ⟨_, _, _, _, rfl⟩
  · obtain ⟨v, sev, rfl⟩ := spo2Alerts_mem r now a h; exact ⟨_, _, _, _, rfl⟩
  · obtain ⟨v, ty, sev, rfl⟩ := abpAlerts_mem r now a h; exact ⟨_, _, _, _, rfl⟩
  · obtain ⟨v, ty, sev, rfl⟩ := papAlerts_mem r now a h; exact ⟨_, _, _, _, rfl⟩
  · obtain ⟨v, ty, sev, rfl⟩ := etco2Alerts_mem r now a h; exact ⟨_, _, _, _, rfl⟩
  · obtain ⟨v, ty, sev, rfl⟩ := awrrAlerts_mem r now a h; exact ⟨_, _, _, _, rfl⟩

/-- C9: the server range table `ALERT_RANGES` and the client range table
`VITAL_RANGES` are equal, match the reference values of the spec exactly
(rows listed as normalLow, normalHigh, criticalLow, criticalHigh), and
every row satisfies criticalLow ≤ normalLow ≤ normalHigh ≤ criticalHigh.
Both tables are plain constants of the embedding, hence pure and never
mutated. -/
theorem c9_range_table :
    ALERT_RANGES = VITAL_RANGES ∧
    rangeOf VitalKind.HeartRate = ⟨60, 100, 50, 120⟩ ∧
    rangeOf VitalKind.Pulse = ⟨60, 100, 50, 120⟩ ∧
    rangeOf VitalKind.SpO2 = ⟨90, 100, 85, 100⟩ ∧
    rangeOf VitalKind.ArterialSystolic = ⟨90, 120, 70, 180⟩ ∧
    rangeOf VitalKind.PulmonaryDiastolic = ⟨4, 12, 2, 20⟩ ∧
    rangeOf VitalKind.EtCO2 = ⟨35, 45, 25, 55⟩ ∧
    rangeOf VitalKind.AirwayRespRate = ⟨12, 20, 8, 25⟩ ∧
    ∀ k : VitalKind, (rangeOf k).criticalLow ≤ (rangeOf k).low ∧
      (rangeOf k).low ≤ (rangeOf k).high ∧ (rangeOf k).high ≤ (rangeOf k).criticalHigh := by
  refine ⟨rfl, rfl, rfl, rfl, rfl, rfl, rfl, rfl, ?_⟩
  intro k
  cases k <;> exact ⟨by decide, by decide, by decide⟩

/-- The direction and severity the claimed end-to-end scenario expects for
the documented test reading. -/
def claimedFixtureSummary : List (String × String × String) :=
  [("HR", "low", "critical"), ("Pulse", "low", "critical"), ("SpO2", "low", "critical"),
   ("ABP Sys", "low", "warning"), ("PAP Dia", "high", "warning"),
   ("EtCO2", "high", "warning"), ("awRR", "high", "critical")]

/-- C1 counterexample: on the documented test reading the evaluator does
not produce the claimed severity list; at the critical boundaries the
comparisons are strict, so SpO2 = 85 (criticalLow 85) and awRR = 25
(criticalHigh 25) come out as warning, not critical. -/
theorem c1_fixture_severity_counterexample :
    (generateAlertsForVitals testVitals 0).map (fun a => (a.vital, a.type, a.severity)) ≠
      claimedFixtureSummary := by decide

/-- C1 amended: the documented test reading yields exactly 7 alerts, in
the documented order and directions, with severities HR low/critical,
Pulse low/critical, SpO2 low/warning, ABP Sys low/warning, PAP Dia
high/warning, EtCO2 high/warning and awRR high/warning. -/
theorem c1_fixture_alerts (now : Nat) :
    (generateAlertsForVitals testVitals now).map (fun a => (a.vital, a.type, a.severity)) =
      [("HR", "low", "critical"), ("Pulse", "low", "critical"), ("SpO2", "low", "warning"),
       ("ABP Sys", "low", "warning"), ("PAP Dia", "high", "warning"),
       ("EtCO2", "high", "warning"), ("awRR", "high", "warning")] ∧
    (generateAlertsForVitals testVitals now).length = 7 := by
  exact ⟨rfl, rfl⟩

/-- C7 counterexample: evaluating the identical reading at two different
wall-clock instants yields different alert ids, because the id embeds
`Date.now()` at evaluation time rather than the timestamp carried by the
reading. -/
theorem c7_id_counterexample :
    (generateAlertsForVitals testVitals 1000).map Alert.id ≠
      (generateAlertsForVitals testVitals 2000).map Alert.id := by decide

/-- C7 amended: alert generation is deterministic in the pair (reading,
evaluation instant): the sequence of (vital, value, direction, severity)
tuples is stable and independent of the clock, and every emitted alert
carries the id `{patientId}-{vitalKind}-{now}` and timestamp built from the
wall clock at evaluation time, so ids of the same reading+kind pair
coincide exactly when the clock values coincide. -/
theorem c7_deterministic_mod_clock :
    (∀ (r : Vital) (n1 n2 : Nat),
      (generateAlertsForVitals r n1).map alertCore =
        (generateAlertsForVitals r n2).map alertCore) ∧
    (∀ (r : Vital) (now : Nat) (a : Alert), a ∈ generateAlertsForVitals r now →
      a.id = s!"{r.patient_id}-{a.vital}-{now}" ∧ a.timestamp = now) := by
  constructor
  · intro r n1 n2
    unfold generateAlertsForVitals
    simp only [List.map_append]
    rw [hrAlerts_core r n1 n2, pulseAlerts_core r n1 n2, spo2Alerts_core r n1 n2,
      abpAlerts_core r n1 n2, papAlerts_core r n1 n2, etco2Alerts_core r n1 n2,
      awrrAlerts_core r n1 n2]
  · intro r now a ha
    obtain ⟨lbl, v, ty, sev, rfl⟩ := generate_mem r now a ha
    exact ⟨rfl, rfl⟩

/-- The SpO2 alert built for the documented test reading at instant 0. -/
def spo2StoredAlert : Alert := pushAlert 1 "SpO2" 85 "low" "warning" 0

/-- An HR alert for the same patient at instant 1. -/
def hrNewAlert : Alert := pushAlert 1 "HR" 45 "low" "critical" 1

/-- C7 witness: the id template of the second conjunct, instantiated on
the first alert of the documented test reading at instant 0. -/
theorem c7_witness :
    (generateAlertsForVitals testVitals 0).map alertCore =
      (generateAlertsForVitals testVitals 0).map alertCore ∧
    spo2StoredAlert ∈ generateAlertsForVitals testVitals 0 ∧
    spo2StoredAlert.id = s!"{testVitals.patient_id}-{spo2StoredAlert.vital}-{(0 : Nat)}" ∧
    spo2StoredAlert.timestamp = 0 :=
  ⟨c7_deterministic_mod_clock.1 testVitals 0 0, by decide,
    c7_deterministic_mod_clock.2 testVitals 0 spo2StoredAlert (by decide)⟩

/-- C4: the evaluator never emits an SpO2 alert with direction high; every
alert labelled SpO2 has direction low, for every reading and instant. -/
theorem c4_spo2_never_high (r : Vital) (now : Nat) (a : Alert)
    (ha : a ∈ generateAlertsForVitals r now) (hv : a.vital = "SpO2") :
    a.type = "low" := by
  unfold generateAlertsForVitals at ha
  simp only [List.mem_append] at ha
  rcases ha with ((((((h | h) | h) | h) | h) | h) | h)
  · obtain ⟨v, ty, sev, rfl⟩ := hrAlerts_mem r now a h; simp [pushAlert] at hv
  · obtain ⟨v, ty, sev, rfl⟩ := pulseAlerts_mem r now a h; simp [pushAlert] at hv
  · obtain ⟨v, sev, rfl⟩ := spo2Alerts_mem r now a h; rfl
  · obtain ⟨v, ty, sev, rfl⟩ := abpAlerts_mem r now a h; simp [pushAlert] at hv
  · obtain ⟨v, ty, sev, rfl⟩ := papAlerts_mem r now a h; simp [pushAlert] at hv
  · obtain ⟨v, ty, sev, rfl⟩ := etco2Alerts_mem r now a h; simp [pushAlert] at hv
  · obtain ⟨v, ty, sev, rfl⟩ := awrrAlerts_mem r now a h; simp [pushAlert] at hv

/-- C4 witness: the SpO2 alert of the documented test reading (SpO2 = 85,
and 85 is also above the claimed high ceiling check since normalHigh is
100) has direction low. -/
theorem c4_witness :
    spo2StoredAlert ∈ generateAlertsForVitals testVitals 0 ∧
    spo2StoredAlert.type = "low" :=
  ⟨by decide, c4_spo2_never_high testVitals 0 spo2StoredAlert (by decide) rfl⟩

/-- C6 counterexample: in the `VitalNotifications` component the merge
keeps a previously stored SpO2 alert even though the new evaluation
contains only an HR alert, so a kind absent from the new evaluation is not
removed there. -/
theorem c6_ghost_counterexample :
    spo2StoredAlert ∈ vitalNotificationsMerge [spo2StoredAlert] [hrNewAlert] [] ∧
    hrNewAlert.vital ≠ "SpO2" ∧ spo2StoredAlert.vital = "SpO2" := by decide

/-- C6 amended: the per-patient notification store of
`PatientVitalMonitor.tsx` does replace: after an update the stored entry is
exactly the new evaluation (or removed when it is empty), so every vital
kind absent from the new evaluation is gone; the `VitalNotifications`
component instead merges, keeping previous alerts of kinds the new
evaluation does not mention. -/
theorem c6_store_replacement :
    (∀ (store : PatientStore) (patientId : Int) (newAlerts : List Alert),
      patientNotificationsUpdate store patientId newAlerts patientId =
        if newAlerts.length > 0 then some newAlerts else none) ∧
    (∀ (store : PatientStore) (patientId : Int) (newAlerts l : List Alert)
        (lbl : String) (a : Alert),
      (∀ b ∈ newAlerts, b.vital ≠ lbl) →
      patientNotificationsUpdate store patientId newAlerts patientId = some l →
      a ∈ l → a.vital ≠ lbl) := by
  have key : ∀ (store : PatientStore) (patientId : Int) (newAlerts : List Alert),
      patientNotificationsUpdate store patientId newAlerts patientId =
        if newAlerts.length > 0 then some newAlerts else none := by
    intro store patientId newAlerts
    unfold patientNotificationsUpdate
    split_ifs <;> simp
  refine ⟨key, ?_⟩
  intro store patientId newAlerts l lbl a hnew hupd hmem
  rw [key] at hupd
  split_ifs at hupd
  injection hupd with h2
  subst h2
  exact hnew a hmem

/-- C6 witness: a patient previously alerting for SpO2 whose new
evaluation contains only an HR alert has no SpO2 entry left in the
per-patient store. -/
theorem c6_witness :
    patientNotificationsUpdate (fun _ => none) 1 [hrNewAlert] 1 = some [hrNewAlert] ∧
    hrNewAlert.vital ≠ "SpO2" :=
  ⟨c6_store_replacement.1 (fun _ => none) 1 [hrNewAlert],
    c6_store_replacement.2 (fun _ => none) 1 [hrNewAlert] [hrNewAlert] "SpO2" hrNewAlert
      (by decide) (c6_store_replacement.1 (fun _ => none) 1 [hrNewAlert]) (by decide)⟩

/-- C8: the spec-modelled rate limiter delivers iff no entry exists for
the (subject, vital kind) key or the cooldown has elapsed since the last
delivery; it passes a fresh key, blocks an immediate repeat, and passes
again once the cooldown has elapsed. -/
theorem c8_rate_limiter :
    (∀ (st : RateLimitState) (subjectId : Int) (vitalKind : String) (now : Nat),
      st (subjectId, vitalKind) = none → shouldDeliver st subjectId vitalKind now = true) ∧
    (∀ (st : RateLimitState) (subjectId : Int) (vitalKind : String) (now lastEntry : Nat),
      st (subjectId, vitalKind) = some lastEntry →
      (shouldDeliver st subjectId vitalKind now = true ↔ cooldownMs ≤ now - lastEntry)) ∧
    (∀ (subjectId : Int) (vitalKind : String) (t : Nat),
      shouldDeliver emptyRateLimitState subjectId vitalKind t = true ∧
      shouldDeliver (recordDelivery emptyRateLimitState subjectId vitalKind t)
        subjectId vitalKind t = false ∧
      shouldDeliver (recordDelivery emptyRateLimitState subjectId vitalKind t)
        subjectId vitalKind (t + cooldownMs) = true) := by
  refine ⟨?_, ?_, ?_⟩
  · intro st subjectId vitalKind now h
    unfold shouldDeliver
    rw [h]
  · intro st subjectId vitalKind now lastEntry h
    unfold shouldDeliver
    rw [h]
    simp
  · intro subjectId vitalKind t
    refine ⟨rfl, ?_, ?_⟩
    · unfold shouldDeliver recordDelivery
      simp only [if_pos rfl]
      simp [cooldownMs]
    · unfold shouldDeliver recordDelivery
      simp only [if_pos rfl]
      simp

/-- C8 witness: a fresh key delivers; the recorded key blocks at the same
instant and delivers again after the cooldown. -/
theorem c8_witness :
    shouldDeliver emptyRateLimitState 1 "HR" 0 = true ∧
    shouldDeliver (recordDelivery emptyRateLimitState 1 "HR" 0) 1 "HR" 0 = false ∧
    shouldDeliver (recordDelivery emptyRateLimitState 1 "HR" 0) 1 "HR" (0 + cooldownMs) = true :=
  ⟨c8_rate_limiter.1 emptyRateLimitState 1 "HR" 0 rfl,
    (c8_rate_limiter.2.2 1 "HR" 0).2.1,
    (c8_rate_limiter.2.2 1 "HR" 0).2.2⟩

/-- C2: for every plain scalar kind (HR, Pulse, EtCO2, awRR) with a
present value v, the evaluator emits exactly one alert for that kind iff v
lies strictly outside the normal range, with direction low when v is below
normalLow and high when v is above normalHigh, and severity critical iff v
lies strictly outside the critical range, warning otherwise. -/
theorem c2_scalar_threshold_rule (k : VitalKind) (r : Vital) (now : Nat) (v : Int)
    (hk : isPlainScalar k = true) (hv : kindValue k r = some v) :
    alertsFor (vitalLabel k) (generateAlertsForVitals r now) =
      (if v < (rangeOf k).low ∨ v > (rangeOf k).high then
        [pushAlert r.patient_id (vitalLabel k) v
          (if v < (rangeOf k).low then "low" else "high")
          (if v < (rangeOf k).criticalLow ∨ v > (rangeOf k).criticalHigh
            then "critical" else "warning") now]
      else []) := by
  rw [alertsFor_generate]
  cases k
  case HeartRate =>
    simp only [kindValue] at hv
    simp only [kindAlerts, vitalLabel, rangeOf]
    unfold hrAlerts
    simp only [hv]
  case Pulse =>
    simp only [kindValue] at hv
    simp only [kindAlerts, vitalLabel, rangeOf]
    unfold pulseAlerts
    simp only [hv]
  case EtCO2 =>
    simp only [kindValue] at hv
    simp only [kindAlerts, vitalLabel, rangeOf]
    unfold etco2Alerts
    simp only [hv]
  case AirwayRespRate =>
    simp only [kindValue] at hv
    simp only [kindAlerts, vitalLabel, rangeOf]
    unfold awrrAlerts
    simp only [hv]
  case SpO2 => exact absurd hk (by decide)
  case ArterialSystolic => exact absurd hk (by decide)
  case PulmonaryDiastolic => exact absurd hk (by decide)

/-- C2 witness: HR = 45 on the documented test reading gives the single
low/critical HR alert predicted by the rule. -/
theorem c2_witness :
    isPlainScalar VitalKind.HeartRate = true ∧
    alertsFor (vitalLabel VitalKind.HeartRate) (generateAlertsForVitals testVitals 0) =
      (if (45 : Int) < (rangeOf VitalKind.HeartRate).low ∨
          (45 : Int) > (rangeOf VitalKind.HeartRate).high then
        [pushAlert testVitals.patient_id (vitalLabel VitalKind.HeartRate) 45
          (if (45 : Int) < (rangeOf VitalKind.HeartRate).low then "low" else "high")
          (if (45 : Int) < (rangeOf VitalKind.HeartRate).criticalLow ∨
              (45 : Int) > (rangeOf VitalKind.HeartRate).criticalHigh
            then "critical" else "warning") 0]
      else []) :=
  ⟨rfl, c2_scalar_threshold_rule VitalKind.HeartRate testVitals 0 45 rfl rfl⟩

/-- C3: for every kind whose present value lies inside the inclusive
normal range (boundaries included) the evaluator emits no alert of that
kind, and a reading with every field absent yields no alerts at all. -/
theorem c3_in_range_no_alert :
    (∀ (k : VitalKind) (r : Vital) (now : Nat) (v : Int),
      kindValue k r = some v → (rangeOf k).low ≤ v → v ≤ (rangeOf k).high →
      alertsFor (vitalLabel k) (generateAlertsForVitals r now) = []) ∧
    (∀ (patientId : Int) (created_at : String) (now : Nat),
      generateAlertsForVitals (allAbsent patientId created_at) now = []) := by
  constructor
  · intro k r now v hv h1 h2
    rw [alertsFor_generate]
    cases k
    case HeartRate =>
      simp only [kindValue] at hv
      simp only [rangeOf, ALERT_RANGES] at h1 h2
      simp only [kindAlerts]
      unfold hrAlerts
      simp only [hv]
      split_ifs with h <;>
        first
          | rfl
          | (exfalso; simp only [ALERT_RANGES] at h; omega)
    case Pulse =>
      simp only [kindValue] at hv
      simp only [rangeOf, ALERT_RANGES] at h1 h2
      simp only [kindAlerts]
      unfold pulseAlerts
      simp only [hv]
      split_ifs with h <;>
        first
          | rfl
          | (exfalso; simp only [ALERT_RANGES] at h; omega)
    case SpO2 =>
      simp only [kindValue] at hv
      simp only [rangeOf, ALERT_RANGES] at h1 h2
      simp only [kindAlerts]
      unfold spo2Alerts
      simp only [hv]
      split_ifs with h <;>
        first
          | rfl
          | (exfalso; simp only [ALERT_RANGES] at h; omega)
    case EtCO2 =>
      simp only [kindValue] at hv
      simp only [rangeOf, ALERT_RANGES] at h1 h2
      simp only [kindAlerts]
      unfold etco2Alerts
      simp only [hv]
      split_ifs with h <;>
        first
          | rfl
          | (exfalso; simp only [ALERT_RANGES] at h; omega)
    case AirwayRespRate =>
      simp only [kindValue] at hv
      simp only [rangeOf, ALERT_RANGES] at h1 h2
      simp only [kindAlerts]
      unfold awrrAlerts
      simp only [hv]
      split_ifs with h <;>
        first
          | rfl
          | (exfalso; simp only [ALERT_RANGES] at h; omega)
    case ArterialSystolic =>
      simp only [kindValue] at hv
      simp only [rangeOf, ALERT_RANGES] at h1 h2
      simp only [kindAlerts]
      unfold abpAlerts
      rcases habp : r.abp with _ | s <;> simp only [habp] at hv ⊢
      split_ifs at hv ⊢ with hs
      simp only [hv]
      split_ifs with h <;>
        first
          | rfl
          | (exfalso; simp only [ALERT_RANGES] at h; omega)
    case PulmonaryDiastolic =>
      simp only [kindValue] at hv
      simp only [rangeOf, ALERT_RANGES] at h1 h2
      simp only [kindAlerts]
      unfold papAlerts
      rcases hpap : r.pap with _ | s <;> simp only [hpap] at hv ⊢
      split_ifs at hv ⊢ with hs
      simp only [hv]
      split_ifs with h <;>
        first
          | rfl
          | (exfalso; simp only [ALERT_RANGES] at h; omega)
  · intro patientId created_at now
    rfl

/-- A reading whose only present field is a normal heart rate. -/
def normalReading : Vital := { allAbsent 1 "t0" with hr := some 70 }

/-- C3 witness: HR = 70 is in range and yields no HR alert, and the
all-absent reading yields no alerts. -/
theorem c3_witness :
    alertsFor (vitalLabel VitalKind.HeartRate) (generateAlertsForVitals normalReading 0) = [] ∧
    generateAlertsForVitals (allAbsent 1 "t0") 5 = [] :=
  ⟨c3_in_range_no_alert.1 VitalKind.HeartRate normalReading 0 70 rfl (by decide) (by decide),
    c3_in_range_no_alert.2 1 "t0" 5⟩

theorem abpAlerts_eq_nil (r : Vital) (now : Nat)
    (h : kindValue VitalKind.ArterialSystolic r = none) : abpAlerts r now = [] := by
  simp only [kindValue] at h
  unfold abpAlerts
  rcases habp : r.abp with _ | s <;> simp only [habp] at h ⊢
  split_ifs at h ⊢ with hs
  · simp only [h]
  · rfl

theorem papAlerts_eq_nil (r : Vital) (now : Nat)
    (h : kindValue VitalKind.PulmonaryDiastolic r = none) : papAlerts r now = [] := by
  simp only [kindValue] at h
  unfold papAlerts
  rcases hpap : r.pap with _ | s <;> simp only [hpap] at h ⊢
  split_ifs at h ⊢ with hs
  · simp only [h]
  · rfl

/-- C5: blood-pressure evaluation splits the compound string on the slash;
ArterialSystolic reads component 0 (so "85/60" is evaluated as 85 and, 85
being below normalLow 90, yields direction low), PulmonaryDiastolic reads
component 1 and applies the common threshold rule to it; when the compound
value is absent or does not parse at the required index, that kind emits
nothing and the remaining evaluation of the reading is exactly the
evaluation of the reading without that field — silently, since the
evaluator is a total function. -/
theorem c5_bp_parsing :
    (∀ (r : Vital) (now : Nat), r.abp = some "85/60" →
      alertsFor "ABP Sys" (generateAlertsForVitals r now) =
        [pushAlert r.patient_id "ABP Sys" 85 "low" "warning" now]) ∧
    (∀ (r : Vital) (now : Nat) (s : String) (v : Int),
      r.pap = some s → s ≠ "" → jsParseIntOpt ((jsSplitSlash s)[1]?) = some v →
      alertsFor "PAP Dia" (generateAlertsForVitals r now) =
        (if v < ALERT_RANGES.PAP_Dia.low ∨ v > ALERT_RANGES.PAP_Dia.high then
          [pushAlert r.patient_id "PAP Dia" v
            (if v < ALERT_RANGES.PAP_Dia.low then "low" else "high")
            (if v < ALERT_RANGES.PAP_Dia.criticalLow ∨ v > ALERT_RANGES.PAP_Dia.criticalHigh
              then "critical" else "warning") now]
        else [])) ∧
    (∀ (r : Vital) (now : Nat), kindValue VitalKind.ArterialSystolic r = none →
      alertsFor "ABP Sys" (generateAlertsForVitals r now) = [] ∧
      generateAlertsForVitals r now =
        generateAlertsForVitals { r with abp := none } now) ∧
    (∀ (r : Vital) (now : Nat), kindValue VitalKind.PulmonaryDiastolic r = none →
      alertsFor "PAP Dia" (generateAlertsForVitals r now) = [] ∧
      generateAlertsForVitals r now =
        generateAlertsForVitals { r with pap := none } now) := by
  refine ⟨?_, ?_, ?_, ?_⟩
  · intro r now habp
    show alertsFor (vitalLabel VitalKind.ArterialSystolic) _ = _
    rw [alertsFor_generate]
    simp only [kindAlerts]
    unfold abpAlerts
    simp only [habp]
    rfl
  · intro r now s v hpap hs hval
    show alertsFor (vitalLabel VitalKind.PulmonaryDiastolic) _ = _
    rw [alertsFor_generate]
    simp only [kindAlerts]
    unfold papAlerts
    simp only [hpap]
    rw [if_pos hs]
    simp only [hval]
  · intro r now hnone
    constructor
    · show alertsFor (vitalLabel VitalKind.ArterialSystolic) _ = _
      rw [alertsFor_generate]
      simp only [kindAlerts]
      exact abpAlerts_eq_nil r now hnone
    · unfold generateAlertsForVitals
      rw [abpAlerts_eq_nil r now hnone]
      rfl
  · intro r now hnone
    constructor
    · show alertsFor (vitalLabel VitalKind.PulmonaryDiastolic) _ = _
      rw [alertsFor_generate]
      simp only [kindAlerts]
      exact papAlerts_eq_nil r now hnone
    · unfold generateAlertsForVitals
      rw [papAlerts_eq_nil r now hnone]
      rfl

/-- The documented test reading with a malformed arterial pressure. -/
def badAbpReading : Vital := { testVitals with abp := some "not-a-number/60" }

/-- C5 witness: "85/60" yields the low-side systolic alert at value 85;
"not-a-number/60" yields no ABP Sys alert and leaves the rest of the
evaluation unchanged. -/
theorem c5_witness :
    alertsFor "ABP Sys" (generateAlertsForVitals testVitals 0) =
      [pushAlert testVitals.patient_id "ABP Sys" 85 "low" "warning" 0] ∧
    alertsFor "ABP Sys" (generateAlertsForVitals badAbpReading 0) = [] ∧
    generateAlertsForVitals badAbpReading 0 =
      generateAlertsForVitals { badAbpReading with abp := none } 0 :=
  ⟨c5_bp_parsing.1 testVitals 0 rfl,
    (c5_bp_parsing.2.2.1 badAbpReading 0 rfl).1,
    (c5_bp_parsing.2.2.1 badAbpReading 0 rfl).2⟩

theorem sanitizedVital_hr_none (v : Vital) (x : Int) (hx : v.hr = some x)
    (hout : ¬(0 < x ∧ x < 300)) : (sanitizedVital v).hr = none := by
  simp only [sanitizedVital]
  simp only [hx]
  rw [if_neg (by omega)]

theorem sanitizedVital_pulse_none (v : Vital) (x : Int) (hx : v.pulse = some x)
    (hout : ¬(0 < x ∧ x < 300)) : (sanitizedVital v).pulse = none := by
  simp only [sanitizedVital]
  simp only [hx]
  rw [if_neg (by omega)]

theorem sanitizedVital_spo2_none (v : Vital) (x : Int) (hx : v.spo2 = some x)
    (hout : ¬(0 < x ∧ x ≤ 100)) : (sanitizedVital v).spo2 = none := by
  simp only [sanitizedVital]
  simp only [hx]
  rw [if_neg (by omega)]

theorem hrAlerts_of_none (r : Vital) (now : Nat) (h : r.hr = none) :
    hrAlerts r now = [] := by
  unfold hrAlerts
  simp only [h]

theorem pulseAlerts_of_none (r : Vital) (now : Nat) (h : r.pulse = none) :
    pulseAlerts r now = [] := by
  unfold pulseAlerts
  simp only [h]

theorem spo2Alerts_of_none (r : Vital) (now : Nat) (h : r.spo2 = none) :
    spo2Alerts r now = [] := by
  unfold spo2Alerts
  simp only [h]

/-- C10: the save-vitals endpoint replaces a submitted heart-rate or
pulse value outside the open interval (0, 300), or an SpO2 value outside
(0, 100], by null before storage, broadcast and alert evaluation, so such
a submission yields no alert of that kind even when the value lies outside
the critical bounds. -/
theorem c10_sanitization :
    (∀ (v : Vital) (x : Int), v.hr = some x → ¬(0 < x ∧ x < 300) →
      (sanitizedVital v).hr = none) ∧
    (∀ (v : Vital) (x : Int), v.pulse = some x → ¬(0 < x ∧ x < 300) →
      (sanitizedVital v).pulse = none) ∧
    (∀ (v : Vital) (x : Int), v.spo2 = some x → ¬(0 < x ∧ x ≤ 100) →
      (sanitizedVital v).spo2 = none) ∧
    (∀ (v : Vital) (now : Nat) (x : Int), v.hr = some x → ¬(0 < x ∧ x < 300) →
      alertsFor "HR" (postVitalsAlerts v now) = []) ∧
    (∀ (v : Vital) (now : Nat) (x : Int), v.pulse = some x → ¬(0 < x ∧ x < 300) →
      alertsFor "Pulse" (postVitalsAlerts v now) = []) ∧
    (∀ (v : Vital) (now : Nat) (x : Int), v.spo2 = some x → ¬(0 < x ∧ x ≤ 100) →
      alertsFor "SpO2" (postVitalsAlerts v now) = []) := by
  refine ⟨sanitizedVital_hr_none, sanitizedVital_pulse_none, sanitizedVital_spo2_none,
    ?_, ?_, ?_⟩
  · intro v now x hx hout
    unfold postVitalsAlerts
    show alertsFor (vitalLabel VitalKind.HeartRate) _ = _
    rw [alertsFor_generate]
    simp only [kindAlerts]
    exact hrAlerts_of_none _ _ (sanitizedVital_hr_none v x hx hout)
  · intro v now x hx hout
    unfold postVitalsAlerts
    show alertsFor (vitalLabel VitalKind.Pulse) _ = _
    rw [alertsFor_generate]
    simp only [kindAlerts]
    exact pulseAlerts_of_none _ _ (sanitizedVital_pulse_none v x hx hout)
  · intro v now x hx hout
    unfold postVitalsAlerts
    show alertsFor (vitalLabel VitalKind.SpO2) _ = _
    rw [alertsFor_generate]
    simp only [kindAlerts]
    exact spo2Alerts_of_none _ _ (sanitizedVital_spo2_none v x hx hout)

/-- A submission with out-of-domain values: hr = 0, pulse = 500,
spo2 = 150. -/
def invalidReading : Vital :=
  { patient_id := 2
    hr := some 0
    pulse := some 500
    spo2 := some 150
    abp := none
    pap := none
    etco2 := none
    awrr := none
    created_at := "t1" }

/-- C10 witness: hr = 0 and spo2 = 150 are nulled by the endpoint and
yield no HR or SpO2 alert even though both lie outside critical bounds. -/
theorem c10_witness :
    (sanitizedVital invalidReading).hr = none ∧
    alertsFor "HR" (postVitalsAlerts invalidReading 0) = [] ∧
    alertsFor "SpO2" (postVitalsAlerts invalidReading 0) = [] :=
  ⟨c10_sanitization.1 invalidReading 0 rfl (by decide),
    c10_sanitization.2.2.2.1 invalidReading 0 0 rfl (by decide),
    c10_sanitization.2.2.2.2.2 invalidReading 0 150 rfl (by decide)⟩
